import Mathlib

/-!
Verification of the exercise-running pipeline of `src/exercise.rs`
(a Rustlings-style exercise verification tool with three exercise kinds:
compiled Rust sources, Circom circuit sources, and Markdown question
documents).

The shallow embedding below translates the pure control flow of
`exercise.rs` into Lean.  External subprocess execution is abstracted by
an environment `Env` that fixes, for each toolchain invocation, the
process outcome (exit code and captured output lines) or a spawn error.
The output buffer `Vec<u8>` is modelled as a list of transcript lines.
Fallible Rust functions returning `anyhow::Result` become `Except String`.
-/

namespace Zklings

/-- The output buffer: a sequence of transcript lines (models `Vec<u8>`,
with each `writeln!`/captured line as one element). -/
abbrev Buffer := List String

/-- Outcome of one external process that actually ran: its exit code and
the output lines it produced. -/
structure ProcOutcome where
  exitCode : Nat
  out : List String
deriving Repr, DecidableEq

/-- Generic Markdown AST node (the fragment of `markdown::mdast::Node`
that `extract_question_and_answer` inspects). -/
inductive Node where
  | root (children : List Node)
  | heading (depth : Nat) (children : List Node)
  | paragraph (children : List Node)
  | code (value : String)
  | text (value : String)
  | other

/-- The execution environment: outcomes of external toolchain invocations
and of the interactive/filesystem collaborators.  `.error` means the
process could not be spawned (an operational failure); `.ok` carries the
exit code and captured output of a process that ran. -/
structure Env where
  /-- `DEBUG_PROFILE && in_official_repo()` (external collaborators). -/
  dev : Bool
  /-- Outcome of a cargo invocation, keyed by subcommand, args, binary
  name and the dev flag. -/
  cargo : String → List String → String → Bool → Except String ProcOutcome
  /-- Outcome of executing a binary at a given path. -/
  bin : String → Except String ProcOutcome
  /-- Outcome of a circom invocation, keyed by subcommand, args and
  circuit name. -/
  circom : String → List String → String → Except String ProcOutcome
  /-- `fs::read_to_string` on a path. -/
  readFile : String → Except String String
  /-- `markdown::to_mdast` with GFM options; total, since GFM parsing
  never fails in the `markdown` crate. -/
  parse : String → Node
  /-- The single line read from stdin by `run_markdown` (including its
  trailing newline, as `read_line` produces). -/
  stdinLine : String

/-- ASCII whitespace, as recognized by the trimming model below. -/
def isWs (c : Char) : Bool :=
  c == ' ' || c == '\t' || c == '\n' || c == '\r'

/-- Model of Rust `str::trim` (an external std collaborator): drop
leading and trailing whitespace. -/
def trimStr (s : String) : String :=
  ⟨((s.data.dropWhile isWs).reverse.dropWhile isWs).reverse⟩

/-- A line recognized as warning-level diagnostic output (it starts with
"warning"). -/
def warningPrefixed (l : String) : Bool :=
  l.data.take 7 == "warning".data

/-- Modelled from the spec: CommandRunner suppresses "lines recognized as
warning-level diagnostic output" when `hide_warnings` is set (the code
doing the recognition lives in `cmd.rs`, which is not under `src/`). -/
def stripWarnings (lines : List String) : List String :=
  lines.filter (fun l => !(warningPrefixed l))

/-- Modelled from the spec: CommandRunner (`runCmd` in `cmd.rs`, not
under `src/`).  Appends the captured output (filtered when
`hideWarnings`) to the buffer and returns `true` iff the exit code is
zero; a spawn failure is a propagated error, not a `false` result. -/
def runCmd (res : Except String ProcOutcome) (hideWarnings : Bool)
    (output : Buffer) : Except String (Bool × Buffer) :=
  match res with
  | .error m => .error m
  | .ok r =>
      .ok (r.exitCode == 0,
        output ++ (if hideWarnings then stripWarnings r.out else r.out))

/-- The `CargoCmd` record of `cmd.rs` as built by `exercise.rs` (the
`output` field is threaded explicitly instead). -/
structure CargoCmd where
  subcommand : String
  args : List String
  bin_name : String
  description : String
  hide_warnings : Bool
  target_dir : String
  dev : Bool

/-- Modelled from the spec: the compiled-language ToolchainInvoker
(`CargoCmd::run` in `cmd.rs`, not under `src/`) "writes a description
header into the buffer before invoking" and then delegates to
CommandRunner. -/
def CargoCmd.run (c : CargoCmd) (env : Env) (output : Buffer) :
    Except String (Bool × Buffer) :=
  runCmd (env.cargo c.subcommand c.args c.bin_name c.dev) c.hide_warnings
    (output ++ [c.description])

/-- The `CircomCmd` record of `cmd.rs` as built by `exercise.rs`. -/
structure CircomCmd where
  subcommand : String
  args : List String
  circuit_name : String
  description : String
  circuit_dir : String

/-- Modelled from the spec: the circuit-toolchain ToolchainInvoker
(`CircomCmd::run` in `cmd.rs`, not under `src/`): writes its description
trace line, then delegates to CommandRunner. -/
def CircomCmd.run (c : CircomCmd) (env : Env) (output : Buffer) :
    Except String (Bool × Buffer) :=
  runCmd (env.circom c.subcommand c.args c.circuit_name) false
    (output ++ [c.description])

/-- The failure banner appended by `run_bin` on a nonzero exit code. -/
def run_failure_banner : String :=
  "The exercise didn't run successfully (nonzero exit code)"

/-- The path `<target_dir>/debug/<bin_name>` built by `run_bin`. -/
def bin_path (target_dir bin_name : String) : String :=
  target_dir ++ "/debug/" ++ bin_name

/-- `run_bin` from `exercise.rs`: write an "Output" header, execute the
built binary, and append the failure banner iff its exit code was
nonzero. -/
def run_bin (env : Env) (bin_name : String) (output : Buffer)
    (target_dir : String) : Except String (Bool × Buffer) :=
  let output := output ++ ["Output"]
  match runCmd (env.bin (bin_path target_dir bin_name)) false output with
  | .error m => .error m
  | .ok (success, output) =>
      if !success then .ok (success, output ++ [run_failure_banner])
      else .ok (success, output)

/-- The `Exercise` descriptor of `exercise.rs`. -/
structure Exercise where
  name : String
  ext : String
  path : String
  test : Bool
  strict_clippy : Bool
  hint : String
  done : Bool

/-- `Exercise::is_rust`. -/
def Exercise.is_rust (e : Exercise) : Bool := e.ext == "rs"

/-- `Exercise::is_circom`. -/
def Exercise.is_circom (e : Exercise) : Bool := e.ext == "circom"

/-- `Exercise::is_md`. -/
def Exercise.is_md (e : Exercise) : Bool := e.ext == "md"

/-- The clippy argument list chosen in `RunnableExercise::run` depending
on `strict_clippy`. -/
def clippy_args (strict : Bool) : List String :=
  if strict then ["--profile", "test", "--", "-D", "warnings"]
  else ["--profile", "test"]

/-- `RunnableExercise::run` from `exercise.rs`: clear the buffer, build,
on failure return false; clear the buffer again, clippy, on failure
return false; if no test stage, run the binary; otherwise run the test
stage and then unconditionally the binary, returning the conjunction. -/
def Exercise.run (e : Exercise) (env : Env) (bin_name : String)
    (_output : Buffer) (target_dir : String) : Except String (Bool × Buffer) :=
  -- output.clear()
  match CargoCmd.run
      ⟨"build", [], bin_name, "cargo build …", false, target_dir, env.dev⟩
      env [] with
  | .error m => .error m
  | .ok (build_success, output) =>
    if !build_success then .ok (false, output)
    else
      -- output.clear(): the build output is discarded before clippy
      match CargoCmd.run
          ⟨"clippy", clippy_args e.strict_clippy, bin_name, "cargo clippy …",
            false, target_dir, env.dev⟩ env [] with
      | .error m => .error m
      | .ok (clippy_success, output) =>
        if !clippy_success then .ok (false, output)
        else if !e.test then run_bin env bin_name output target_dir
        else
          match CargoCmd.run
              ⟨"test", ["--", "--color", "always", "--show-output"], bin_name,
                "cargo test …", true, target_dir, env.dev⟩ env output with
          | .error m => .error m
          | .ok (test_success, output) =>
            match run_bin env bin_name output target_dir with
            | .error m => .error m
            | .ok (run_success, output) =>
                .ok (test_success && run_success, output)

/-- `RunnableExercise::run_circom` from `exercise.rs`: compile the
circuit (short-circuit on failure), then the stubbed prove and verify
stages.  Note: the incoming buffer is never cleared. -/
def Exercise.run_circom (e : Exercise) (env : Env) (output : Buffer) :
    Except String (Bool × Buffer) :=
  let circuit_dir := "path/to/your/circom/circuits"
  let output := output ++ ["Compiling Circom circuit..."]
  match CircomCmd.run
      ⟨"compile", ["--r1cs", "--wasm", "--sym"], e.name,
        "Compiling Circom circuit", circuit_dir⟩ env output with
  | .error m => .error m
  | .ok (compile_success, output) =>
    if !compile_success then .ok (false, output)
    else
      let output := output ++ ["Generating proof..."]
      let proof_success := true
      let output := output ++ ["Verifying proof..."]
      let verify_success := true
      .ok (compile_success && proof_success && verify_success, output)

/-- The inline text concatenation performed on a node list by
`extract_question_and_answer` (only `Node::Text` children contribute). -/
def inlineText (children : List Node) : String :=
  children.foldl
    (fun acc c => match c with | .text v => acc ++ v | _ => acc) ""

/-- The walk over top-level children in `extract_question_and_answer`:
a depth-1 heading enters question mode and contributes its inline text;
a paragraph contributes its inline text only in question mode; the first
code block sets the answer and breaks; everything else is skipped. -/
def extractWalk : List Node → String → String → Bool → String × String
  | [], q, a, _ => (q, a)
  | .heading d cs :: rest, q, a, inq =>
      if d == 1 then extractWalk rest (q ++ inlineText cs) a true
      else extractWalk rest q a inq
  | .paragraph cs :: rest, q, a, inq =>
      if inq then extractWalk rest (q ++ inlineText cs) a inq
      else extractWalk rest q a inq
  | .code v :: _, q, _, _ => (q, v)
  | _ :: rest, q, a, inq => extractWalk rest q a inq

/-- The question/answer accumulators after the walk (empty when the root
node is not a `Root`). -/
def extractPair (ast : Node) : String × String :=
  match ast with
  | .root children => extractWalk children "" "" false
  | _ => ("", "")

/-- The error message of `extract_question_and_answer`. -/
def extract_err : String :=
  "Failed to extract question or answer from markdown"

/-- `RunnableExercise::extract_question_and_answer` from `exercise.rs`. -/
def extract_question_and_answer (ast : Node) :
    Except String (String × String) :=
  let p := extractPair ast
  if p.1.isEmpty || p.2.isEmpty then .error extract_err
  else .ok p

/-- `RunnableExercise::run_markdown` from `exercise.rs`: read and parse
the document, extract question and answer (propagating extraction
errors), print the trimmed question, read one stdin line, and compare it
trimmed against the trimmed answer.  Note: the incoming buffer is never
cleared. -/
def Exercise.run_markdown (e : Exercise) (env : Env) (output : Buffer) :
    Except String (Bool × Buffer) :=
  match env.readFile e.path with
  | .error m => .error m
  | .ok content =>
    let ast := env.parse content
    match extract_question_and_answer ast with
    | .error m => .error m
    | .ok (question, answer) =>
      let output := output ++ [trimStr question]
      let user_input := env.stdinLine
      let success := trimStr user_input == trimStr answer
      let output :=
        if success then output ++ ["Correct!"]
        else
          output ++
            ["Incorrect. The correct answer was: " ++ trimStr answer]
      .ok (success, output)

/-- `RunnableExercise::run_exercise` from `exercise.rs`: dispatch on the
exercise kind; unsupported kinds are an operational error. -/
def Exercise.run_exercise (e : Exercise) (env : Env) (output : Buffer)
    (target_dir : String) : Except String (Bool × Buffer) :=
  if e.is_rust then e.run env e.name output target_dir
  else if e.is_circom then e.run_circom env output
  else if e.is_md then e.run_markdown env output
  else .error "Unsupported exercise type"

/-- `RunnableExercise::run_solution` from `exercise.rs`: the identical
pipeline with the binary name suffixed by `_sol`. -/
def Exercise.run_solution (e : Exercise) (env : Env) (output : Buffer)
    (target_dir : String) : Except String (Bool × Buffer) :=
  e.run env (e.name ++ "_sol") output target_dir


/-! ### Concrete fixtures for witnesses and counterexamples -/

/-- A default environment in which every external process succeeds with
no output; concrete runs override individual fields. -/
def baseEnv : Env where
  dev := false
  cargo := fun _ _ _ _ => .ok ⟨0, []⟩
  bin := fun _ => .ok ⟨0, []⟩
  circom := fun _ _ _ => .ok ⟨0, []⟩
  readFile := fun _ => .ok ""
  parse := fun _ => .other
  stdinLine := ""

/-- A Rust exercise with a test stage and strict clippy. -/
def exRust : Exercise :=
  ⟨"ex1", "rs", "exercises/ex1.rs", true, true, "", false⟩

/-- A Rust exercise without a test stage. -/
def exRustNoTest : Exercise :=
  ⟨"ex2", "rs", "exercises/ex2.rs", false, false, "", false⟩

/-- A Circom exercise. -/
def exCircom : Exercise :=
  ⟨"circ1", "circom", "exercises/circ1.circom", false, false, "", false⟩

/-- A Markdown question-document exercise. -/
def exMd : Exercise :=
  ⟨"quiz1", "md", "exercises/quiz1.md", false, false, "", false⟩

/-- An exercise of unsupported kind. -/
def exTxt : Exercise :=
  ⟨"oops", "txt", "exercises/oops.txt", false, false, "", false⟩

/-! ### Claim theorems -/

/-- C6: the argument list of the Lint stage without `strict_lint` is exactly
`--profile test`, and with `strict_lint` it is that list extended with
`-- -D warnings` — in particular a superset of the non-strict list that
adds the warnings-as-errors flag after `--`. -/
theorem clippy_args_strict_extends_non_strict :
    clippy_args false = ["--profile", "test"]
    ∧ clippy_args true = clippy_args false ++ ["--", "-D", "warnings"]
    ∧ (clippy_args false).Sublist (clippy_args true) := by
  refine ⟨rfl, rfl, ?_⟩
  decide

/-- C9: when the exercise binary runs with outcome `r`, `run_bin`
succeeds with verdict `r.exitCode == 0` and the buffer gains the
"Output" header, the output of the binary, and the failure banner exactly
when the exit code is nonzero. -/
theorem run_bin_banner_iff_nonzero_exit
    (env : Env) (bin_name : String) (output : Buffer) (target_dir : String)
    (r : ProcOutcome)
    (h : env.bin (bin_path target_dir bin_name) = .ok r) :
    run_bin env bin_name output target_dir =
      .ok (r.exitCode == 0,
        output ++ ["Output"] ++ r.out
          ++ if r.exitCode == 0 then [] else [run_failure_banner]) := by
  by_cases h0 : r.exitCode = 0 <;>
    simp [run_bin, runCmd, h, h0]

/-- Witness for C9: a binary exiting 0 gets no banner; one exiting 1
gets the banner after its output. -/
theorem run_bin_banner_iff_nonzero_exit_witness :
    run_bin { baseEnv with bin := fun _ => .ok ⟨0, ["fine"]⟩ } "b" [] "t" =
        .ok (true, ["Output", "fine"])
    ∧ run_bin { baseEnv with bin := fun _ => .ok ⟨1, ["bad"]⟩ } "b" [] "t" =
        .ok (false, ["Output", "bad", run_failure_banner]) := by
  constructor
  · have h := run_bin_banner_iff_nonzero_exit
      { baseEnv with bin := fun _ => .ok ⟨0, ["fine"]⟩ } "b" [] "t"
      ⟨0, ["fine"]⟩ rfl
    simpa using h
  · have h := run_bin_banner_iff_nonzero_exit
      { baseEnv with bin := fun _ => .ok ⟨1, ["bad"]⟩ } "b" [] "t"
      ⟨1, ["bad"]⟩ rfl
    simpa using h

/-- C2: if the Build stage runs and fails, `run` returns the verdict
`false` with the buffer holding exactly the build header and the build
output; moreover the result is the same under any environment that
gives the build invocation that outcome, whatever its Lint, Test and
binary stages would do — they are never executed. -/
theorem run_build_failure_short_circuits
    (e : Exercise) (env : Env) (bin_name : String) (output0 : Buffer)
    (target_dir : String) (r : ProcOutcome)
    (hb : env.cargo "build" [] bin_name env.dev = .ok r)
    (hfail : r.exitCode ≠ 0) :
    e.run env bin_name output0 target_dir =
      .ok (false, "cargo build …" :: r.out)
    ∧ ∀ env2 : Env, env2.cargo "build" [] bin_name env2.dev = .ok r →
        e.run env2 bin_name output0 target_dir =
          e.run env bin_name output0 target_dir := by
  have h0 : (r.exitCode == 0) = false := by simpa using hfail
  have main : ∀ env3 : Env, env3.cargo "build" [] bin_name env3.dev = .ok r →
      e.run env3 bin_name output0 target_dir =
        .ok (false, "cargo build …" :: r.out) := by
    intro env3 hb3
    simp [Exercise.run, CargoCmd.run, runCmd, hb3, h0]
  exact ⟨main env hb, fun env2 hb2 => (main env2 hb2).trans (main env hb).symm⟩

/-- Witness for C2: a concrete run whose build exits 1 returns `false`
with only the build transcript, ignoring a stale buffer. -/
theorem run_build_failure_short_circuits_witness :
    exRust.run
        { baseEnv with
          cargo := fun sub _ _ _ =>
            if sub == "build" then .ok ⟨1, ["build err"]⟩ else .ok ⟨0, []⟩ }
        "ex1" ["STALE"] "td" =
      .ok (false, ["cargo build …", "build err"]) := by
  have h := (run_build_failure_short_circuits exRust
    { baseEnv with
      cargo := fun sub _ _ _ =>
        if sub == "build" then .ok ⟨1, ["build err"]⟩ else .ok ⟨0, []⟩ }
    "ex1" ["STALE"] "td" ⟨1, ["build err"]⟩ rfl (by decide)).1
  simpa using h

/-- C1: counterexample to "every top-level run clears the buffer":
`run_exercise` on a Circom exercise (which dispatches to `run_circom`)
and on a Markdown exercise (which dispatches to `run_markdown`) both
retain stale content already in the buffer, so the buffer after return
is not independent of its content before the call — contradicting the
doc comment of `run_exercise` ("written to the `output` buffer after
clearing it"). -/
theorem run_circom_and_markdown_keep_stale_buffer :
    exCircom.run_exercise
        { baseEnv with circom := fun _ _ _ => .ok ⟨0, ["circom ok"]⟩ }
        ["STALE"] "td" =
      .ok (true, ["STALE", "Compiling Circom circuit...",
        "Compiling Circom circuit", "circom ok", "Generating proof...",
        "Verifying proof..."])
    ∧ exMd.run_exercise
        { baseEnv with
          parse := fun _ => .root [.heading 1 [.text "Q"], .code "42"],
          stdinLine := "42\n" }
        ["STALE"] "td" =
      .ok (true, ["STALE", "Q", "Correct!"]) := by
  constructor
  · rfl
  · rfl

/-- A top-level block that is neither a code block nor a level-1
heading: the walk skips it while no question has started. -/
def neutralBlock (n : Node) : Bool :=
  match n with
  | .code _ => false
  | .heading d _ => !(d == 1)
  | _ => true

/-- Helper: with an empty question accumulator and question mode off,
blocks that are neither code nor level-1 headings do not change the
state of the walk. -/
theorem extractWalk_skip_neutral (pre l : List Node) (a : String)
    (h : pre.all neutralBlock = true) :
    extractWalk (pre ++ l) "" a false = extractWalk l "" a false := by
  induction pre with
  | nil => rfl
  | cons n rest ih =>
      simp only [List.all_cons, Bool.and_eq_true] at h
      obtain ⟨hn, hrest⟩ := h
      cases n with
      | code v => simp [neutralBlock] at hn
      | heading d cs =>
          have hd : (d == 1) = false := by
            simpa [neutralBlock] using hn
          simpa [extractWalk, hd] using ih hrest
      | paragraph cs => simpa [extractWalk] using ih hrest
      | root cs => simpa [extractWalk] using ih hrest
      | text v => simpa [extractWalk] using ih hrest
      | other => simpa [extractWalk] using ih hrest

/-- Helper: extraction fails with the extraction error whenever the walk
leaves an empty question or an empty answer. -/
theorem extract_empty_is_err (ast : Node)
    (h : ((extractPair ast).1.isEmpty || (extractPair ast).2.isEmpty)
      = true) :
    extract_question_and_answer ast = .error extract_err := by
  simp [extract_question_and_answer, h]

/-- C3: operational failures are propagated errors, never a boolean
verdict: an exercise of unsupported kind makes `run_exercise` fail with
"Unsupported exercise type"; a question document whose file cannot be
read propagates the read error; one whose parsed document lacks a
well-formed question or answer fails with the extraction error. -/
theorem run_exercise_operational_errors
    (e : Exercise) (env : Env) (output : Buffer) (target_dir : String) :
    (e.is_rust = false → e.is_circom = false → e.is_md = false →
      e.run_exercise env output target_dir =
        .error "Unsupported exercise type")
    ∧ (∀ m : String, e.is_rust = false → e.is_circom = false →
        e.is_md = true → env.readFile e.path = .error m →
        e.run_exercise env output target_dir = .error m)
    ∧ (∀ content : String, e.is_rust = false → e.is_circom = false →
        e.is_md = true → env.readFile e.path = .ok content →
        ((extractPair (env.parse content)).1.isEmpty
          || (extractPair (env.parse content)).2.isEmpty) = true →
        e.run_exercise env output target_dir = .error extract_err) := by
  refine ⟨fun h1 h2 h3 => ?_, fun m h1 h2 h3 hf => ?_,
    fun c h1 h2 h3 hf he => ?_⟩
  · simp [Exercise.run_exercise, h1, h2, h3]
  · simp [Exercise.run_exercise, Exercise.run_markdown, h1, h2, h3, hf]
  · have hx := extract_empty_is_err (env.parse c) he
    simp [Exercise.run_exercise, Exercise.run_markdown, h1, h2, h3, hf, hx]

/-- Witness for C3: a `.txt` exercise fails with the unsupported-kind
error, and a Markdown exercise whose document has a heading but no code
block fails with the extraction error. -/
theorem run_exercise_operational_errors_witness :
    exTxt.run_exercise baseEnv [] "td" = .error "Unsupported exercise type"
    ∧ exMd.run_exercise
        { baseEnv with parse := fun _ => .root [.heading 1 [.text "Q"]] }
        [] "td" = .error extract_err := by
  constructor
  · exact (run_exercise_operational_errors exTxt baseEnv [] "td").1
      rfl rfl rfl
  · exact (run_exercise_operational_errors exMd
      { baseEnv with parse := fun _ => .root [.heading 1 [.text "Q"]] }
      [] "td").2.2 "" rfl rfl rfl rfl rfl

/-- C4: with a test stage required and Build and Lint succeeding, the
Test stage and the Run-binary sub-step both execute (whatever the test
outcome `rt`, including failures), the verdict is the conjunction of the
test result and the run result, and the buffer contains both the test
transcript and the run transcript. -/
theorem run_test_and_bin_both_execute
    (e : Exercise) (env : Env) (bin_name : String) (output0 : Buffer)
    (target_dir : String) (rb rc rt rr : ProcOutcome)
    (htest : e.test = true)
    (hb : env.cargo "build" [] bin_name env.dev = .ok rb)
    (hb0 : rb.exitCode = 0)
    (hc : env.cargo "clippy" (clippy_args e.strict_clippy) bin_name env.dev
      = .ok rc)
    (hc0 : rc.exitCode = 0)
    (ht : env.cargo "test" ["--", "--color", "always", "--show-output"]
      bin_name env.dev = .ok rt)
    (hr : env.bin (bin_path target_dir bin_name) = .ok rr) :
    e.run env bin_name output0 target_dir =
      .ok ((rt.exitCode == 0) && (rr.exitCode == 0),
        "cargo clippy …" :: (rc.out ++ ["cargo test …"]
          ++ stripWarnings rt.out ++ ["Output"] ++ rr.out
          ++ if rr.exitCode == 0 then [] else [run_failure_banner])) := by
  by_cases h0 : rr.exitCode = 0 <;>
    simp [Exercise.run, CargoCmd.run, runCmd, run_bin, hb, hc, ht, hr,
      hb0, hc0, htest, h0]

/-- Environment for the C4 witness: clippy clean, test failing, binary
exiting zero. -/
def envTestFail : Env :=
  { baseEnv with
    cargo := fun sub _ _ _ =>
      if sub == "test" then .ok ⟨1, ["test failed"]⟩
      else if sub == "clippy" then .ok ⟨0, ["clippy ok"]⟩
      else .ok ⟨0, []⟩,
    bin := fun _ => .ok ⟨0, ["ran fine"]⟩ }

/-- Witness for C4: the test stage fails but the binary still runs; the
verdict is `false` and the buffer holds both transcripts. -/
theorem run_test_and_bin_both_execute_witness :
    exRust.run envTestFail "ex1" [] "td" =
      .ok (false, ["cargo clippy …", "clippy ok", "cargo test …",
        "test failed", "Output", "ran fine"]) := by
  have h := run_test_and_bin_both_execute exRust envTestFail "ex1" [] "td"
    ⟨0, []⟩ ⟨0, ["clippy ok"]⟩ ⟨1, ["test failed"]⟩ ⟨0, ["ran fine"]⟩
    rfl rfl rfl rfl rfl rfl rfl
  exact h.trans rfl

/-- C5: without a required test stage, once Build and Lint succeed the
result of the run is exactly the result of the Run-binary sub-step on the
post-lint buffer; moreover the run is unchanged under any environment
that agrees on the build and clippy invocations, the dev flag and the
binary execution — the Test stage is never invoked. -/
theorem run_no_test_skips_test_stage
    (e : Exercise) (env : Env) (bin_name : String) (output0 : Buffer)
    (target_dir : String) (rb rc : ProcOutcome)
    (hnotest : e.test = false)
    (hb : env.cargo "build" [] bin_name env.dev = .ok rb)
    (hb0 : rb.exitCode = 0)
    (hc : env.cargo "clippy" (clippy_args e.strict_clippy) bin_name env.dev
      = .ok rc)
    (hc0 : rc.exitCode = 0) :
    e.run env bin_name output0 target_dir =
      run_bin env bin_name ("cargo clippy …" :: rc.out) target_dir
    ∧ ∀ env2 : Env, env2.dev = env.dev → env2.bin = env.bin →
        (∀ args bn dv,
          env2.cargo "build" args bn dv = env.cargo "build" args bn dv) →
        (∀ args bn dv,
          env2.cargo "clippy" args bn dv = env.cargo "clippy" args bn dv) →
        e.run env2 bin_name output0 target_dir =
          e.run env bin_name output0 target_dir := by
  have main : ∀ env3 : Env, env3.dev = env.dev → env3.bin = env.bin →
      (∀ args bn dv,
        env3.cargo "build" args bn dv = env.cargo "build" args bn dv) →
      (∀ args bn dv,
        env3.cargo "clippy" args bn dv = env.cargo "clippy" args bn dv) →
      e.run env3 bin_name output0 target_dir =
        run_bin env bin_name ("cargo clippy …" :: rc.out) target_dir := by
    intro env3 hdev hbin hcb hcc
    have hb3 : env3.cargo "build" [] bin_name env3.dev = .ok rb := by
      rw [hdev, hcb]; exact hb
    have hc3 : env3.cargo "clippy" (clippy_args e.strict_clippy) bin_name
        env3.dev = .ok rc := by
      rw [hdev, hcc]; exact hc
    simp [Exercise.run, CargoCmd.run, runCmd, hb3, hc3, hb0, hc0, hnotest,
      run_bin, hbin]
  exact ⟨main env rfl rfl (fun _ _ _ => rfl) (fun _ _ _ => rfl),
    fun env2 h1 h2 h3 h4 =>
      (main env2 h1 h2 h3 h4).trans
        (main env rfl rfl (fun _ _ _ => rfl) (fun _ _ _ => rfl)).symm⟩

/-- Environment for the C5 witness: invoking the test stage would be an
operational error, yet the run succeeds because it is never invoked. -/
def envNoTest : Env :=
  { baseEnv with
    cargo := fun sub _ _ _ =>
      if sub == "test" then .error "test stage must not be invoked"
      else if sub == "clippy" then .ok ⟨0, ["clippy ok"]⟩
      else .ok ⟨0, []⟩,
    bin := fun _ => .ok ⟨0, ["ran fine"]⟩ }

/-- Witness for C5: a no-test exercise returns the result of the binary run
directly, although the environment would fail any test invocation. -/
theorem run_no_test_skips_test_stage_witness :
    exRustNoTest.run envNoTest "ex2" [] "td" =
      .ok (true, ["cargo clippy …", "clippy ok", "Output", "ran fine"]) := by
  have h := (run_no_test_skips_test_stage exRustNoTest envNoTest "ex2" []
    "td" ⟨0, []⟩ ⟨0, ["clippy ok"]⟩ rfl rfl rfl rfl rfl).1
  exact h.trans rfl

/-- C7: on the document "# Q", paragraph "more", code "42", code "99",
extraction yields question "Qmore" and answer "42"; a code block always
ends the walk immediately (later blocks are ignored); and whenever the
walk leaves the question or the answer accumulator empty — such as a
heading with no code block — extraction fails with the explicit
extraction error instead of returning an empty result. -/
theorem extract_question_and_answer_spec :
    extract_question_and_answer
        (.root [.heading 1 [.text "Q"], .paragraph [.text "more"],
          .code "42", .code "99"]) = .ok ("Qmore", "42")
    ∧ (∀ (v : String) (rest : List Node) (q a : String) (inq : Bool),
        extractWalk (Node.code v :: rest) q a inq = (q, v))
    ∧ (∀ ast : Node,
        ((extractPair ast).1.isEmpty || (extractPair ast).2.isEmpty)
          = true →
        extract_question_and_answer ast = .error extract_err) :=
  ⟨rfl, fun _ _ _ _ _ => rfl, fun ast h => extract_empty_is_err ast h⟩

/-- Witness for C7: a document with a heading but no code block fails
with the extraction error. -/
theorem extract_question_and_answer_spec_witness :
    extract_question_and_answer (.root [.heading 1 [.text "H"]]) =
      .error extract_err :=
  extract_question_and_answer_spec.2.2 (.root [.heading 1 [.text "H"]]) rfl

/-- C8: the interactive compare of `run_markdown` succeeds exactly when
the trimmed operator input equals byte-for-byte the trimmed canonical
answer, that comparison is returned as the success boolean of the stage, and
on failure the buffer shows the canonical answer. -/
theorem run_markdown_trimmed_compare
    (e : Exercise) (env : Env) (output : Buffer) (content q a : String)
    (hf : env.readFile e.path = .ok content)
    (hx : extract_question_and_answer (env.parse content) = .ok (q, a)) :
    e.run_markdown env output =
      .ok (trimStr env.stdinLine == trimStr a,
        if trimStr env.stdinLine == trimStr a then
          output ++ [trimStr q, "Correct!"]
        else
          output ++ [trimStr q,
            "Incorrect. The correct answer was: " ++ trimStr a]) := by
  cases hs : (trimStr env.stdinLine == trimStr a) <;>
    simp [Exercise.run_markdown, hf, hx, hs]

/-- Environment for the C8 witness, success case: the document has the
question "Q" and the canonical answer " 42 "; the operator types "42". -/
def envQuiz42 : Env :=
  { baseEnv with
    parse := fun _ => .root [.heading 1 [.text "Q"], .code " 42 "],
    stdinLine := "42\n" }

/-- Environment for the C8 witness, failure case: same document, but the
operator types "43". -/
def envQuiz43 : Env :=
  { baseEnv with
    parse := fun _ => .root [.heading 1 [.text "Q"], .code " 42 "],
    stdinLine := "43\n" }

/-- Witness for C8: input "42" against canonical answer " 42 " succeeds;
input "43" fails and the buffer shows the canonical answer. -/
theorem run_markdown_trimmed_compare_witness :
    exMd.run_markdown envQuiz42 [] = .ok (true, ["Q", "Correct!"])
    ∧ exMd.run_markdown envQuiz43 [] =
      .ok (false, ["Q", "Incorrect. The correct answer was: 42"]) := by
  constructor
  · have h := run_markdown_trimmed_compare exMd envQuiz42 [] "" "Q" " 42 "
      rfl rfl
    exact h.trans rfl
  · have h := run_markdown_trimmed_compare exMd envQuiz43 [] "" "Q" " 42 "
      rfl rfl
    exact h.trans rfl

/-- C10: if the first top-level code block comes before any level-1
heading (every block before it is neither code nor a level-1 heading),
the walk records that code block as the answer and stops with an empty
question accumulator, so extraction fails with the extraction error —
even if level-1 headings and further code blocks follow. -/
theorem code_block_before_heading_always_fails
    (pre rest : List Node) (v : String)
    (h : pre.all neutralBlock = true) :
    extractPair (.root (pre ++ Node.code v :: rest)) = ("", v)
    ∧ extract_question_and_answer (.root (pre ++ Node.code v :: rest)) =
        .error extract_err := by
  have hp : extractPair (.root (pre ++ Node.code v :: rest)) = ("", v) := by
    show extractWalk (pre ++ Node.code v :: rest) "" "" false = ("", v)
    rw [extractWalk_skip_neutral pre _ "" h]
    rfl
  refine ⟨hp, extract_empty_is_err _ ?_⟩
  rw [hp]
  rfl

/-- Witness for C10: a depth-2 heading and a paragraph precede the code
block "ans"; a level-1 heading and another code block follow, yet
extraction fails. -/
theorem code_block_before_heading_always_fails_witness :
    extract_question_and_answer
        (.root [.heading 2 [.text "t"], .paragraph [.text "p"], .other,
          .code "ans", .heading 1 [.text "Q"], .code "late"]) =
      .error extract_err :=
  (code_block_before_heading_always_fails
    [.heading 2 [.text "t"], .paragraph [.text "p"], .other]
    [.heading 1 [.text "Q"], .code "late"] "ans" rfl).2

end Zklings
